import Mathlib

/-!
Verification of the WARP+ key generator script (src/tools/warp-plus-keygen.py).

The script is a single linear workflow of sequential HTTP requests with a
retry-on-failure loop.  We embed it shallowly: every network interaction is an
input to the embedded function (an oracle describing what the remote side did),
and the embedded functions return the observable behaviour of the script
(stdout lines, stderr lines, sleeps, exit outcome).

Conventions of the embedding:
- `requests` / `httpx` transport-level failures (connection, DNS, timeout) are
  a distinct oracle constructor; they correspond to `httpx.RequestError` or a
  `requests` exception.
- A completed HTTP response carries a numeric status and, where the script
  parses a body, an optional parsed body; `none` models a body that fails
  JSON or UTF-8 decoding.
- Missing JSON fields are `Option.none` fields of the parsed-body structures;
  reading them with `[...]` in Python raises `KeyError`, which the script
  catches as an uncategorized error, while `.get(key, default)` substitutes
  the default.
- `random.choice` is modelled by an arbitrary natural number supplied by the
  oracle, reduced modulo the pool length; on an empty pool it models the
  `IndexError` that `random.choice` raises.
-/

/-- Outcome of the single `requests.get` performed by `get_base_keys`:
either the request raised (network error, timeout), or it completed with a
status code and a body that either decodes as UTF-8 (`some s`) or does not
(`none`, modelling `UnicodeDecodeError`). -/
inductive FetchOutcome where
  | err : FetchOutcome
  | ok (status : Nat) (body : Option String) : FetchOutcome
deriving DecidableEq

/-- The hardcoded fallback keys of `get_base_keys` (source lines 34-38). -/
def fallback_keys : List String :=
  ["Qi286N5r-v4R05pT1-3Hl8V24w",
   "mJ9t3X82-N7hB46s9-Dq5yP13f",
   "Yk147R6p-b2S98vT4-Mw3nH71x"]

/-- The status range for which `requests.Response.raise_for_status` raises
`HTTPError`: client errors (4xx) and server errors (5xx). -/
def raiseForStatusErr (st : Nat) : Bool :=
  400 ≤ st && st < 600

/-- Whitespace as stripped by Python `str.strip()`. -/
def isPySpace (c : Char) : Bool :=
  c = ' ' || c = '\t' || c = '\n' || c = '\r' || c = '\x0b' || c = '\x0c'

/-- Strip leading and trailing Python whitespace from a character list. -/
def trimChars (l : List Char) : List Char :=
  ((l.dropWhile isPySpace).reverse.dropWhile isPySpace).reverse

/-- Python `str.strip()`. -/
def pyStrip (s : String) : String :=
  String.mk (trimChars s.data)

/-- Helper for `splitComma`: accumulates the current segment (reversed). -/
def splitCommaAux : List Char → List Char → List String
  | [], acc => [String.mk acc.reverse]
  | c :: rest, acc =>
    if c = ',' then String.mk acc.reverse :: splitCommaAux rest []
    else splitCommaAux rest (c :: acc)

/-- Python `s.split(",")`: split on every comma, keeping empty segments
(so the empty string splits to one empty segment). -/
def splitComma (s : String) : List String :=
  splitCommaAux s.data []

/-- Embedding of `get_base_keys` (source lines 21-38).  The single network
read is the `FetchOutcome` argument.  On any exception (network error,
`raise_for_status`, decode error) the fallback list is returned; otherwise the
body is split on commas and each segment k with nonempty `k.strip()` is kept,
stripped (the list comprehension on line 30). -/
def get_base_keys : FetchOutcome → List String
  | .err => fallback_keys
  | .ok st body =>
    if raiseForStatusErr st then fallback_keys
    else
      match body with
      | none => fallback_keys
      | some s =>
        ((splitComma s).filter (fun k => pyStrip k ≠ "")).map pyStrip

/-- Parsed JSON body of a `POST /reg` response, as read by the script:
`r.json()["id"]`, `r.json()["account"]["license"]`, `r.json()["token"]`.
A `none` field models that path being absent (Python `KeyError`). -/
structure RegBody where
  id : Option String
  account_license : Option String
  token : Option String
deriving DecidableEq

/-- Parsed JSON body of the final `GET /reg/{id}/account` response, as read on
source lines 105-107. -/
structure AccountBody where
  account_type : Option String
  referral_count : Option Int
  license : Option String
deriving DecidableEq

/-- Outcome of one HTTP call whose body the script parses: a transport-level
error (`httpx.RequestError`), or a completed response with a status code and
an optionally-parseable body (`none` = JSON decode failure). -/
inductive CallOut (β : Type) where
  | transportErr : CallOut β
  | resp (status : Nat) (body : Option β) : CallOut β
deriving DecidableEq

/-- Outcome of an HTTP call whose response the script never inspects
(the PATCH, the two DELETEs and the two PUTs): either a transport-level error
or a completed response with some status. -/
inductive SideOut where
  | transportErr : SideOut
  | completed (status : Nat) : SideOut
deriving DecidableEq

/-- Everything the remote side (and the random source) contributes to one
attempt of `generate_single_key`, in the order the calls are issued. -/
structure AttemptOracle where
  regA : CallOut RegBody
  regB : CallOut RegBody
  patchRef : SideOut
  deleteB : SideOut
  rand : Nat
  putSeed : SideOut
  putRestore : SideOut
  getAccount : CallOut AccountBody
  deleteA : SideOut
deriving DecidableEq

/-- The three exception categories of the attempt loop (source lines 119-133):
`httpx.HTTPStatusError`, `httpx.RequestError`, and the catch-all `Exception`. -/
inductive AttemptError where
  | httpStatus : AttemptError
  | transport : AttemptError
  | uncategorized : AttemptError
deriving DecidableEq

/-- The stderr lines the script can print, abstracted over the interpolated
exception text. -/
inductive ErrLine where
  | httpError (attempt maxR : Nat) : ErrLine
  | requestError (attempt maxR : Nat) : ErrLine
  | unexpectedError (attempt maxR : Nat) : ErrLine
  | accountType (t : String) : ErrLine
  | dataCount (n : Int) : ErrLine
  | finalFailure : ErrLine
  | cancelled : ErrLine
  | fatal : ErrLine
deriving DecidableEq

/-- Observable side effects other than stdout: stderr lines and sleeps. -/
inductive Event where
  | err (l : ErrLine) : Event
  | sleep (secs : Nat) : Event
deriving DecidableEq

/-- `httpx.Response.raise_for_status` raises unless the status is a success
(2xx) status. -/
def is2xx (st : Nat) : Bool :=
  200 ≤ st && st < 300

/-- A call followed by `raise_for_status` and `r.json()`: transport error,
then status check, then JSON decode. -/
def checkedJson {β : Type} : CallOut β → Except AttemptError β
  | .transportErr => .error .transport
  | .resp st body =>
    if is2xx st then
      match body with
      | none => .error .uncategorized
      | some b => .ok b
    else .error .httpStatus

/-- A call whose response the script ignores: only a transport-level error can
raise; a completed response of any status is accepted. -/
def sideCall : SideOut → Except AttemptError Unit
  | .transportErr => .error .transport
  | .completed _ => .ok ()

/-- A required JSON field: absent means Python `KeyError`, an uncategorized
error. -/
def reqField {α : Type} : Option α → Except AttemptError α
  | none => .error .uncategorized
  | some a => .ok a

/-- `random.choice` over a list, driven by the oracle natural `r`:
`none` on the empty list (`IndexError`), otherwise the element at `r` modulo
the length. -/
def randomChoice {α : Type} (l : List α) (r : Nat) : Option α :=
  l.get? (r % l.length)

deriving instance DecidableEq for Except

/-- Observable result of one attempt: the license values sent in the two PUT
requests (when those requests were reached), the stdout and stderr lines the
attempt itself printed, and its result (final license, or the exception
category that aborted it). -/
structure AttemptOut where
  seedPut : Option String
  restorePut : Option String
  stdout : List String
  errs : List ErrLine
  result : Except AttemptError String
deriving DecidableEq

/-- An attempt aborted by exception: nothing printed by the attempt body. -/
def failOut (sp rp : Option String) (e : AttemptError) : AttemptOut :=
  { seedPut := sp, restorePut := rp, stdout := [], errs := [], result := .error e }

/-- Embedding of one iteration of the `while` body of `generate_single_key`
(source lines 58-117), from opening the client to the `return`.  The calls are
issued in source order; the first raising call aborts the attempt with its
category.  `pool` is the `base_keys` list. -/
def runAttempt (pool : List String) (o : AttemptOracle) : AttemptOut :=
  match checkedJson o.regA with
  | .error e => failOut none none e
  | .ok b1 =>
    match b1.id, b1.account_license, b1.token with
    | some _, some license, some _ =>
      (match checkedJson o.regB with
       | .error e => failOut none none e
       | .ok b2 =>
         match b2.id, b2.token with
         | some _, some _ =>
           (match sideCall o.patchRef with
            | .error e => failOut none none e
            | .ok _ =>
              match sideCall o.deleteB with
              | .error e => failOut none none e
              | .ok _ =>
                match randomChoice pool o.rand with
                | none => failOut none none AttemptError.uncategorized
                | some base_key =>
                  match sideCall o.putSeed with
                  | .error e => failOut (some base_key) none e
                  | .ok _ =>
                    match sideCall o.putRestore with
                    | .error e => failOut (some base_key) (some license) e
                    | .ok _ =>
                      match checkedJson o.getAccount with
                      | .error e => failOut (some base_key) (some license) e
                      | .ok b3 =>
                        match b3.license with
                        | none => failOut (some base_key) (some license) AttemptError.uncategorized
                        | some final_license =>
                          match sideCall o.deleteA with
                          | .error e => failOut (some base_key) (some license) e
                          | .ok _ =>
                            { seedPut := some base_key
                              restorePut := some license
                              stdout := [final_license]
                              errs := [ErrLine.accountType (b3.account_type.getD ""),
                                       ErrLine.dataCount (b3.referral_count.getD 0)]
                              result := Except.ok final_license })
         | _, _ => failOut none none AttemptError.uncategorized)
    | _, _, _ => failOut none none AttemptError.uncategorized

/-- The stderr diagnostic printed by the matching `except` clause, given the
category and the incremented attempt counter (source lines 121, 126, 131). -/
def diagLine : AttemptError → Nat → ErrLine
  | .httpStatus, n => .httpError n 3
  | .transport, n => .requestError n 3
  | .uncategorized, n => .unexpectedError n 3

/-- The sleep taken when attempts remain: 5 seconds for HTTP-status and
transport errors, 10 seconds for uncategorized errors. -/
def sleepFor : AttemptError → Nat
  | .httpStatus => 5
  | .transport => 5
  | .uncategorized => 10

/-- Final outcome of `generate_single_key`: a returned license, or a
`sys.exit` with the given status code. -/
inductive RunOutcome where
  | success (license : String) : RunOutcome
  | exitCode (c : Nat) : RunOutcome
deriving DecidableEq

/-- Observable behaviour of a whole `generate_single_key` run: all stdout
lines, all stderr lines and sleeps in order, the attempts actually executed,
and the outcome. -/
structure RunOut where
  stdout : List String
  events : List Event
  attempts : List AttemptOut
  outcome : RunOutcome
deriving DecidableEq

/-- The `while retry_count < max_retries` loop of `generate_single_key`
(source lines 57-136), with `retryCount` the current counter and `fuel` the
remaining iterations (`3 - retryCount`).  When the loop exits without a
return, the final failure line is printed and the process exits with 1. -/
def runLoop (pool : List String) (os : Nat → AttemptOracle) :
    Nat → Nat → RunOut
  | _, 0 =>
    { stdout := [], events := [Event.err ErrLine.finalFailure],
      attempts := [], outcome := RunOutcome.exitCode 1 }
  | retryCount, fuel + 1 =>
    let a := runAttempt pool (os retryCount)
    match a.result with
    | .ok lic =>
      { stdout := a.stdout, events := a.errs.map Event.err,
        attempts := [a], outcome := RunOutcome.success lic }
    | .error e =>
      let n := retryCount + 1
      let rest := runLoop pool os n fuel
      { stdout := a.stdout ++ rest.stdout
        events := (Event.err (diagLine e n) ::
                   (if n < 3 then [Event.sleep (sleepFor e)] else [])) ++ rest.events
        attempts := a :: rest.attempts
        outcome := rest.outcome }

/-- Embedding of `generate_single_key` (source lines 41-136): fetch the pool
once, then run the retry loop with `max_retries = 3` starting from
`retry_count = 0`. -/
def generate_single_key (f : FetchOutcome) (os : Nat → AttemptOracle) : RunOut :=
  runLoop (get_base_keys f) os 0 3

/-- Input to `main`: either the workflow runs to completion (driven by the
fetch outcome and attempt oracles), or a `KeyboardInterrupt` arrives at some
point, with the stdout and events produced so far. -/
inductive MainInput where
  | normal (f : FetchOutcome) (os : Nat → AttemptOracle) : MainInput
  | interrupt (outSoFar : List String) (evsSoFar : List Event) : MainInput

/-- Observable behaviour of the whole process. -/
structure MainOut where
  stdout : List String
  events : List Event
  exitCode : Nat
deriving DecidableEq

/-- Embedding of `main` (source lines 139-148).  A completed
`generate_single_key` either returned (process ends with status 0) or called
`sys.exit(1)`; `SystemExit` is not an `Exception`, so it propagates.  A
`KeyboardInterrupt` is caught only here: the cancellation line is printed and
the process exits with status 130. -/
def main_run : MainInput → MainOut
  | .normal f os =>
    let r := generate_single_key f os
    match r.outcome with
    | .success _ => { stdout := r.stdout, events := r.events, exitCode := 0 }
    | .exitCode c => { stdout := r.stdout, events := r.events, exitCode := c }
  | .interrupt outSoFar evsSoFar =>
    { stdout := outSoFar,
      events := evsSoFar ++ [Event.err ErrLine.cancelled],
      exitCode := 130 }

/-! ### Helper lemmas about one attempt -/

/-- Inversion for `checkedJson`: a successfully parsed body means the call
completed with a 2xx status and that body. -/
lemma checkedJson_ok {β : Type} (c : CallOut β) (b : β) (h : checkedJson c = Except.ok b) :
    ∃ st, c = CallOut.resp st (some b) ∧ is2xx st = true := by
  cases c with
  | transportErr => simp [checkedJson] at h
  | resp st body =>
    simp only [checkedJson] at h
    split at h
    next h2 =>
      cases body with
      | none => exact absurd h (by simp)
      | some x =>
        obtain rfl : x = b := by simpa using h
        exact ⟨st, rfl, h2⟩
    next h2 => exact absurd h (by simp)

/-- A failed attempt prints nothing: the attempt body reaches neither the
stdout print nor the stderr report. -/
lemma runAttempt_error_shape (pool : List String) (o : AttemptOracle) (e : AttemptError)
    (h : (runAttempt pool o).result = Except.error e) :
    (runAttempt pool o).stdout = [] ∧ (runAttempt pool o).errs = [] := by
  revert h
  unfold runAttempt
  repeat' split
  all_goals intro h
  all_goals simp_all [failOut]

/-- A successful attempt printed exactly the final license to stdout, the
final account-info response carried that license, and the restore PUT carried
the license captured at registration. -/
lemma runAttempt_ok_shape (pool : List String) (o : AttemptOracle) (lic : String)
    (h : (runAttempt pool o).result = Except.ok lic) :
    (runAttempt pool o).stdout = [lic] ∧
    (∃ st b, o.getAccount = CallOut.resp st (some b) ∧ is2xx st = true ∧ b.license = some lic) ∧
    (∃ st b rl, o.regA = CallOut.resp st (some b) ∧ b.account_license = some rl ∧
       (runAttempt pool o).restorePut = some rl) := by
  revert h
  unfold runAttempt
  repeat' split
  all_goals intro h
  all_goals simp_all [failOut]
  refine ⟨?_, ?_⟩
  · obtain ⟨st, hc, h2⟩ := checkedJson_ok o.getAccount _ (by assumption)
    exact ⟨st, _, hc, h2, by assumption⟩
  · obtain ⟨st, hc, h2⟩ := checkedJson_ok o.regA _ (by assumption)
    exact ⟨st, _, hc, by assumption⟩

/-- If a seed key was sent, it was the one drawn by `random.choice` from the
pool. -/
lemma runAttempt_seedPut_rand (pool : List String) (o : AttemptOracle) (s : String)
    (h : (runAttempt pool o).seedPut = some s) : randomChoice pool o.rand = some s := by
  revert h
  unfold runAttempt
  repeat' split
  all_goals intro h
  all_goals simp_all [failOut]

/-- Every seed key sent is an element of the pool the attempt ran with. -/
lemma runAttempt_seedPut_mem (pool : List String) (o : AttemptOracle) (s : String)
    (h : (runAttempt pool o).seedPut = some s) : s ∈ pool :=
  List.get?_mem (runAttempt_seedPut_rand pool o s h)

/-! ### Helper lemmas about the retry loop -/

/-- A successful loop run printed exactly the returned license, and some
attempt within the budget succeeded with that license. -/
lemma runLoop_success_shape (pool : List String) (os : Nat → AttemptOracle) :
    ∀ (fuel rc : Nat) (lic : String),
      (runLoop pool os rc fuel).outcome = RunOutcome.success lic →
      (runLoop pool os rc fuel).stdout = [lic] ∧
      ∃ i, rc ≤ i ∧ i < rc + fuel ∧ (runAttempt pool (os i)).result = Except.ok lic := by
  intro fuel
  induction fuel with
  | zero => intro rc lic h; simp [runLoop] at h
  | succ n ih =>
    intro rc lic h
    cases hr : (runAttempt pool (os rc)).result with
    | ok l =>
      rw [runLoop] at h ⊢
      simp only [hr] at h ⊢
      obtain rfl : l = lic := by simpa using h
      exact ⟨(runAttempt_ok_shape pool (os rc) _ hr).1, rc, le_refl rc, by omega, hr⟩
    | error e =>
      rw [runLoop] at h ⊢
      simp only [hr] at h ⊢
      obtain ⟨hs, i, hge, hlt, hok⟩ := ih (rc + 1) lic h
      refine ⟨?_, i, by omega, by omega, hok⟩
      simp [hs, (runAttempt_error_shape pool (os rc) e hr).1]

/-- The i-th attempt the loop actually executed is exactly `runAttempt` on
the fixed pool and the i-th oracle. -/
lemma runLoop_attempts_shape (pool : List String) (os : Nat → AttemptOracle) :
    ∀ (fuel rc i : Nat), i < (runLoop pool os rc fuel).attempts.length →
      (runLoop pool os rc fuel).attempts.get? i = some (runAttempt pool (os (rc + i))) := by
  intro fuel
  induction fuel with
  | zero => intro rc i h; simp [runLoop] at h
  | succ n ih =>
    intro rc i h
    cases hr : (runAttempt pool (os rc)).result with
    | ok l =>
      rw [runLoop] at h ⊢
      simp only [hr] at h ⊢
      obtain rfl : i = 0 := by simpa using h
      simp
    | error e =>
      rw [runLoop] at h ⊢
      simp only [hr] at h ⊢
      cases i with
      | zero => simp
      | succ j =>
        have hj : j < (runLoop pool os (rc + 1) n).attempts.length := by
          simpa using h
        have heq : rc + (j + 1) = (rc + 1) + j := by omega
        rw [heq]
        simpa using ih (rc + 1) j hj

/-! ### Concrete oracles used in witnesses and counterexamples -/

/-- A fully successful attempt, matching the mocked end-to-end scenario of the
spec: registration carries license LIC-ORIG, the final readback reports it. -/
def happyOracle : AttemptOracle :=
  { regA := CallOut.resp 200 (some { id := some "A1", account_license := some "LIC-ORIG", token := some "T1" })
    regB := CallOut.resp 200 (some { id := some "B1", account_license := none, token := some "T2" })
    patchRef := SideOut.completed 200
    deleteB := SideOut.completed 204
    rand := 0
    putSeed := SideOut.completed 200
    putRestore := SideOut.completed 200
    getAccount := CallOut.resp 200 (some { account_type := some "limited", referral_count := some 10, license := some "LIC-ORIG" })
    deleteA := SideOut.completed 204 }

/-- An attempt whose very first registration fails at the transport level. -/
def badOracle : AttemptOracle :=
  { happyOracle with regA := CallOut.transportErr }

/-- A successful attempt whose final account-info response reports a license
different from the one captured at registration. -/
def mismatchOracle : AttemptOracle :=
  { happyOracle with
    getAccount := CallOut.resp 200 (some { account_type := some "limited", referral_count := some 10, license := some "OTHER" }) }

/-- A successful attempt whose referrer PATCH completes with a 500 status. -/
def patchFailOracle : AttemptOracle :=
  { happyOracle with patchRef := SideOut.completed 500 }

/-- A successful attempt with a parameterized final account-info body. -/
def finalInfoOracle (b : AccountBody) : AttemptOracle :=
  { happyOracle with getAccount := CallOut.resp 200 (some b) }

/-! ### Claim theorems -/

/-- Claim C1: for every successful run (an attempt that reaches the final
account-info GET without an exception), standard output consists of exactly
one line, and that line equals the value of the license field of the final
account-info response of the successful attempt.  In the embedding all other
messages (account type, data count, diagnostics) are `ErrLine` events, which
are stderr by construction. -/
theorem stdout_single_license_line (f : FetchOutcome) (os : Nat → AttemptOracle) (lic : String)
    (h : (generate_single_key f os).outcome = RunOutcome.success lic) :
    (generate_single_key f os).stdout = [lic] ∧
    ∃ i, i < 3 ∧ (runAttempt (get_base_keys f) (os i)).result = Except.ok lic ∧
      ∃ st b, (os i).getAccount = CallOut.resp st (some b) ∧ b.license = some lic := by
  obtain ⟨hs, i, _, hlt, hok⟩ :=
    runLoop_success_shape (get_base_keys f) os 3 0 lic h
  obtain ⟨_, ⟨st, b, hga, _, hbl⟩, _⟩ := runAttempt_ok_shape _ _ _ hok
  exact ⟨hs, i, by omega, hok, st, b, hga, hbl⟩

/-- Witness for C1: the happy-path oracle yields a successful run printing
LIC-ORIG. -/
theorem stdout_single_license_line_witness :
    (generate_single_key FetchOutcome.err (fun _ => happyOracle)).stdout = ["LIC-ORIG"] ∧
    ∃ i, i < 3 ∧
      (runAttempt (get_base_keys FetchOutcome.err) happyOracle).result = Except.ok "LIC-ORIG" ∧
      ∃ st b, happyOracle.getAccount = CallOut.resp st (some b) ∧ b.license = some "LIC-ORIG" :=
  stdout_single_license_line FetchOutcome.err (fun _ => happyOracle) "LIC-ORIG" rfl

/-- Counterexample to claim C2: a run in which account A registers with
license LIC-ORIG but the final account-info response reports OTHER completes
successfully and prints OTHER, so the printed license does not equal the
registration license for every response sequence that lets the attempt
complete. -/
theorem printed_license_differs_from_registration :
    mismatchOracle.regA = CallOut.resp 200
      (some { id := some "A1", account_license := some "LIC-ORIG", token := some "T1" }) ∧
    (generate_single_key FetchOutcome.err (fun _ => mismatchOracle)).outcome =
      RunOutcome.success "OTHER" ∧
    (generate_single_key FetchOutcome.err (fun _ => mismatchOracle)).stdout = ["OTHER"] ∧
    "OTHER" ≠ "LIC-ORIG" :=
  ⟨rfl, rfl, rfl, by decide⟩

/-- Claim C2 (amended): for every successful run the printed license equals
the license field of the final account-info response of the successful
attempt; the restore PUT did carry the license captured at registration, but
the script never compares the readback against it. -/
theorem printed_license_from_final_response (f : FetchOutcome) (os : Nat → AttemptOracle)
    (lic : String)
    (h : (generate_single_key f os).outcome = RunOutcome.success lic) :
    ∃ i, i < 3 ∧
      (∃ st b, (os i).getAccount = CallOut.resp st (some b) ∧ b.license = some lic) ∧
      (∃ st b rl, (os i).regA = CallOut.resp st (some b) ∧ b.account_license = some rl ∧
        (runAttempt (get_base_keys f) (os i)).restorePut = some rl) := by
  obtain ⟨_, i, _, hlt, hok⟩ := runLoop_success_shape (get_base_keys f) os 3 0 lic h
  obtain ⟨_, ⟨st, b, hga, _, hbl⟩, hreg⟩ := runAttempt_ok_shape _ _ _ hok
  exact ⟨i, by omega, ⟨st, b, hga, hbl⟩, hreg⟩

/-- Witness for the amended C2, at the mismatch oracle. -/
theorem printed_license_from_final_response_witness :
    ∃ i, i < 3 ∧
      (∃ st b, mismatchOracle.getAccount = CallOut.resp st (some b) ∧ b.license = some "OTHER") ∧
      (∃ st b rl, mismatchOracle.regA = CallOut.resp st (some b) ∧ b.account_license = some rl ∧
        (runAttempt (get_base_keys FetchOutcome.err) mismatchOracle).restorePut = some rl) :=
  printed_license_from_final_response FetchOutcome.err (fun _ => mismatchOracle) "OTHER" rfl

/-- Claim C3: when all three attempts fail, exactly 3 attempts are made, a
sleep follows each failure except the last (5 seconds for HTTP-status and
transport errors, 10 seconds for uncategorized errors), the final failure
line is logged, the process exits with status 1 (also at the `main` level,
since `SystemExit` is not caught), and no stdout output is produced. -/
theorem retry_exhaustion_trace (f : FetchOutcome) (os : Nat → AttemptOracle)
    (e0 e1 e2 : AttemptError)
    (h0 : (runAttempt (get_base_keys f) (os 0)).result = Except.error e0)
    (h1 : (runAttempt (get_base_keys f) (os 1)).result = Except.error e1)
    (h2 : (runAttempt (get_base_keys f) (os 2)).result = Except.error e2) :
    (generate_single_key f os).outcome = RunOutcome.exitCode 1 ∧
    (main_run (MainInput.normal f os)).exitCode = 1 ∧
    (generate_single_key f os).stdout = [] ∧
    (generate_single_key f os).attempts.length = 3 ∧
    (generate_single_key f os).events =
      [Event.err (diagLine e0 1), Event.sleep (sleepFor e0),
       Event.err (diagLine e1 2), Event.sleep (sleepFor e1),
       Event.err (diagLine e2 3), Event.err ErrLine.finalFailure] ∧
    sleepFor AttemptError.httpStatus = 5 ∧
    sleepFor AttemptError.transport = 5 ∧
    sleepFor AttemptError.uncategorized = 10 := by
  have s0 := (runAttempt_error_shape (get_base_keys f) (os 0) e0 h0).1
  have s1 := (runAttempt_error_shape (get_base_keys f) (os 1) e1 h1).1
  have s2 := (runAttempt_error_shape (get_base_keys f) (os 2) e2 h2).1
  have houtcome : (generate_single_key f os).outcome = RunOutcome.exitCode 1 := by
    unfold generate_single_key
    simp [runLoop, h0, h1, h2]
  refine ⟨houtcome, ?_, ?_, ?_, ?_, rfl, rfl, rfl⟩
  · simp [main_run, houtcome]
  all_goals
    unfold generate_single_key
    simp [runLoop, h0, h1, h2, s0, s1, s2]

/-- Witness for C3: three transport failures in a row. -/
theorem retry_exhaustion_trace_witness :
    (generate_single_key FetchOutcome.err (fun _ => badOracle)).outcome = RunOutcome.exitCode 1 ∧
    (main_run (MainInput.normal FetchOutcome.err (fun _ => badOracle))).exitCode = 1 ∧
    (generate_single_key FetchOutcome.err (fun _ => badOracle)).stdout = [] ∧
    (generate_single_key FetchOutcome.err (fun _ => badOracle)).attempts.length = 3 ∧
    (generate_single_key FetchOutcome.err (fun _ => badOracle)).events =
      [Event.err (diagLine AttemptError.transport 1), Event.sleep (sleepFor AttemptError.transport),
       Event.err (diagLine AttemptError.transport 2), Event.sleep (sleepFor AttemptError.transport),
       Event.err (diagLine AttemptError.transport 3), Event.err ErrLine.finalFailure] ∧
    sleepFor AttemptError.httpStatus = 5 ∧
    sleepFor AttemptError.transport = 5 ∧
    sleepFor AttemptError.uncategorized = 10 :=
  retry_exhaustion_trace FetchOutcome.err (fun _ => badOracle) AttemptError.transport
    AttemptError.transport AttemptError.transport rfl rfl rfl

/-- Counterexample to claim C4: a fetch that succeeds with status 200 and an
empty (successfully decoded) body yields the empty pool, not the fixed
3-entry fallback list. -/
theorem empty_body_gives_empty_pool :
    get_base_keys (FetchOutcome.ok 200 (some "")) = [] ∧
    get_base_keys (FetchOutcome.ok 200 (some "")) ≠ fallback_keys ∧
    fallback_keys.length = 3 :=
  ⟨rfl, by decide, rfl⟩

/-- Claim C4 (amended): on an unreachable source, a 4xx/5xx status, or a body
that fails decoding, `get_base_keys` returns the fixed 3-entry fallback list,
and seed selection from the fallback always succeeds; but a successfully
decoded empty body yields the empty pool, and with an empty pool the seed
draw never happens (the attempt fails with an uncategorized error,
modelling the `IndexError` of `random.choice`). -/
theorem seed_fetch_fallback_behavior :
    (get_base_keys FetchOutcome.err = fallback_keys) ∧
    (fallback_keys.length = 3) ∧
    (∀ st b, raiseForStatusErr st = true → get_base_keys (FetchOutcome.ok st b) = fallback_keys) ∧
    (∀ st, get_base_keys (FetchOutcome.ok st none) = fallback_keys) ∧
    (∀ r, (randomChoice fallback_keys r).isSome = true) ∧
    (get_base_keys (FetchOutcome.ok 200 (some "")) = []) ∧
    (∀ o, (runAttempt [] o).seedPut = none) ∧
    ((runAttempt [] happyOracle).result = Except.error AttemptError.uncategorized) := by
  refine ⟨rfl, rfl, ?_, ?_, ?_, rfl, ?_, rfl⟩
  · intro st b h
    simp [get_base_keys, h]
  · intro st
    simp only [get_base_keys]
    split <;> rfl
  · intro r
    have hlt : r % fallback_keys.length < fallback_keys.length :=
      Nat.mod_lt _ (by decide)
    simp only [randomChoice, List.get?_eq_getElem?]
    simp [List.getElem?_eq_getElem hlt]
  · intro o
    cases hsp : (runAttempt [] o).seedPut with
    | none => rfl
    | some s =>
      have := runAttempt_seedPut_rand [] o s hsp
      simp [randomChoice] at this

/-- Witness for the amended C4: a 404 response falls back. -/
theorem seed_fetch_fallback_behavior_witness :
    get_base_keys (FetchOutcome.ok 404 (some "K1,K2")) = fallback_keys :=
  seed_fetch_fallback_behavior.2.2.1 404 (some "K1,K2") rfl

/-- Counterexample to claim C5: an attempt whose referrer PATCH completes
with a non-success 500 status is not aborted; the run still completes
successfully, so not every request surfaces a non-success status as a
retryable failure. -/
theorem patch_status_ignored :
    patchFailOracle.patchRef = SideOut.completed 500 ∧
    is2xx 500 = false ∧
    (generate_single_key FetchOutcome.err (fun _ => patchFailOracle)).outcome =
      RunOutcome.success "LIC-ORIG" ∧
    (generate_single_key FetchOutcome.err (fun _ => patchFailOracle)).stdout = ["LIC-ORIG"] :=
  ⟨rfl, rfl, rfl, rfl⟩

/-- Claim C5 (amended): a completed non-success response aborts the attempt
as a retryable HTTP-status failure exactly for the calls that invoke
`raise_for_status`: the first registration POST, the second registration POST
(once the first registration parsed), and the final account-info GET (once
every earlier call of the attempt went through); the statuses of the
completed referrer PATCH, the account DELETEs and the license PUTs never
affect the attempt result. -/
theorem status_check_coverage :
    (∀ (pool : List String) (o : AttemptOracle) (st : Nat) (b : Option RegBody),
      o.regA = CallOut.resp st b → is2xx st = false →
      (runAttempt pool o).result = Except.error AttemptError.httpStatus) ∧
    (∀ (pool : List String) (o : AttemptOracle) (b1 : RegBody) (i1 lic t1 : String)
        (st : Nat) (b : Option RegBody),
      checkedJson o.regA = Except.ok b1 →
      b1.id = some i1 → b1.account_license = some lic → b1.token = some t1 →
      o.regB = CallOut.resp st b → is2xx st = false →
      (runAttempt pool o).result = Except.error AttemptError.httpStatus) ∧
    (∀ (pool : List String) (o : AttemptOracle) (b1 b2 : RegBody)
        (i1 lic t1 i2 t2 k : String) (st : Nat) (b : Option AccountBody),
      checkedJson o.regA = Except.ok b1 →
      b1.id = some i1 → b1.account_license = some lic → b1.token = some t1 →
      checkedJson o.regB = Except.ok b2 →
      b2.id = some i2 → b2.token = some t2 →
      sideCall o.patchRef = Except.ok () →
      sideCall o.deleteB = Except.ok () →
      randomChoice pool o.rand = some k →
      sideCall o.putSeed = Except.ok () →
      sideCall o.putRestore = Except.ok () →
      o.getAccount = CallOut.resp st b → is2xx st = false →
      (runAttempt pool o).result = Except.error AttemptError.httpStatus) ∧
    (∀ (pool : List String) (o : AttemptOracle) (st st' : Nat),
      (runAttempt pool { o with patchRef := SideOut.completed st }).result =
      (runAttempt pool { o with patchRef := SideOut.completed st' }).result) ∧
    (∀ (pool : List String) (o : AttemptOracle) (st st' : Nat),
      (runAttempt pool { o with deleteB := SideOut.completed st }).result =
      (runAttempt pool { o with deleteB := SideOut.completed st' }).result) ∧
    (∀ (pool : List String) (o : AttemptOracle) (st st' : Nat),
      (runAttempt pool { o with putSeed := SideOut.completed st }).result =
      (runAttempt pool { o with putSeed := SideOut.completed st' }).result) ∧
    (∀ (pool : List String) (o : AttemptOracle) (st st' : Nat),
      (runAttempt pool { o with putRestore := SideOut.completed st }).result =
      (runAttempt pool { o with putRestore := SideOut.completed st' }).result) ∧
    (∀ (pool : List String) (o : AttemptOracle) (st st' : Nat),
      (runAttempt pool { o with deleteA := SideOut.completed st }).result =
      (runAttempt pool { o with deleteA := SideOut.completed st' }).result) := by
  refine ⟨?_, ?_, ?_, fun _ _ _ _ => rfl, fun _ _ _ _ => rfl, fun _ _ _ _ => rfl,
    fun _ _ _ _ => rfl, fun _ _ _ _ => rfl⟩
  · intro pool o st b h hst
    unfold runAttempt
    simp [h, checkedJson, hst, failOut]
  · intro pool o b1 i1 lic t1 st b hA hid hlic htok hB hst
    unfold runAttempt
    simp only [hA, hid, hlic, htok]
    simp [hB, checkedJson, hst, failOut]
  · intro pool o b1 b2 i1 lic t1 i2 t2 k st b hA hid hlic htok hB hid2 htok2
      hpatch hdelB hk hput1 hput2 hG hst
    unfold runAttempt
    simp only [hA, hid, hlic, htok, hB, hid2, htok2, hpatch, hdelB, hk, hput1, hput2]
    simp [hG, checkedJson, hst, failOut]

/-- Witness for the amended C5: a 500 on the first registration, a 500 on the
second registration, and a 503 on the final account-info GET each abort the
attempt with an HTTP-status error. -/
theorem status_check_coverage_witness :
    ((runAttempt fallback_keys { happyOracle with regA := CallOut.resp 500 none }).result =
      Except.error AttemptError.httpStatus) ∧
    ((runAttempt fallback_keys { happyOracle with regB := CallOut.resp 500 none }).result =
      Except.error AttemptError.httpStatus) ∧
    ((runAttempt fallback_keys { happyOracle with getAccount := CallOut.resp 503 none }).result =
      Except.error AttemptError.httpStatus) :=
  ⟨status_check_coverage.1 fallback_keys { happyOracle with regA := CallOut.resp 500 none }
      500 none rfl rfl,
   status_check_coverage.2.1 fallback_keys { happyOracle with regB := CallOut.resp 500 none }
      { id := some "A1", account_license := some "LIC-ORIG", token := some "T1" }
      "A1" "LIC-ORIG" "T1" 500 none rfl rfl rfl rfl rfl rfl,
   status_check_coverage.2.2.1 fallback_keys
      { happyOracle with getAccount := CallOut.resp 503 none }
      { id := some "A1", account_license := some "LIC-ORIG", token := some "T1" }
      { id := some "B1", account_license := none, token := some "T2" }
      "A1" "LIC-ORIG" "T1" "B1" "T2" "Qi286N5r-v4R05pT1-3Hl8V24w" 503 none
      rfl rfl rfl rfl rfl rfl rfl rfl rfl rfl rfl rfl rfl rfl⟩

/-- Claim C6: on a successful fetch the pool is the body split on commas,
each segment trimmed, empty segments dropped, order preserved and duplicates
permitted; in particular the body K1-comma-space-K2... parses to exactly
the three keys, and a repeated segment is kept twice. -/
theorem seed_pool_parsing :
    (∀ (st : Nat) (s : String), raiseForStatusErr st = false →
      get_base_keys (FetchOutcome.ok st (some s)) =
        ((splitComma s).map pyStrip).filter (fun k => k ≠ "")) ∧
    (get_base_keys (FetchOutcome.ok 200 (some "K1, K2 ,K3")) = ["K1", "K2", "K3"]) ∧
    (get_base_keys (FetchOutcome.ok 200 (some "A,B,A")) = ["A", "B", "A"]) := by
  refine ⟨?_, rfl, rfl⟩
  intro st s h
  simp only [get_base_keys, h, Bool.false_eq_true, if_false]
  rw [List.filter_map]
  rfl

/-- Witness for C6 at the concrete body of the end-to-end scenario. -/
theorem seed_pool_parsing_witness :
    get_base_keys (FetchOutcome.ok 200 (some "K1, K2 ,K3")) =
      ((splitComma "K1, K2 ,K3").map pyStrip).filter (fun k => k ≠ "") :=
  seed_pool_parsing.1 200 "K1, K2 ,K3" rfl

/-- Claim C7: an operator interruption at any point exits with status 130,
appends exactly the cancellation line to stderr (so no retry diagnostic is
added and the retry counter is untouched), and the cancellation line is
distinct from the retry-exhaustion line and from every per-attempt
diagnostic.  In the source the `KeyboardInterrupt` handler exists only at the
top level of `main`; the inner handlers catch `httpx` errors and `Exception`,
none of which `KeyboardInterrupt` is. -/
theorem interrupt_exit_130 (outSoFar : List String) (evsSoFar : List Event) :
    (main_run (MainInput.interrupt outSoFar evsSoFar)).exitCode = 130 ∧
    (main_run (MainInput.interrupt outSoFar evsSoFar)).stdout = outSoFar ∧
    (main_run (MainInput.interrupt outSoFar evsSoFar)).events =
      evsSoFar ++ [Event.err ErrLine.cancelled] ∧
    ErrLine.cancelled ≠ ErrLine.finalFailure ∧
    (∀ n m : Nat, ErrLine.cancelled ≠ ErrLine.httpError n m ∧
      ErrLine.cancelled ≠ ErrLine.requestError n m ∧
      ErrLine.cancelled ≠ ErrLine.unexpectedError n m) :=
  ⟨rfl, rfl, rfl, by simp, fun n m => ⟨by simp, by simp, by simp⟩⟩

/-- Claim C8: the seed key sent is always drawn from the pool the attempt ran
with, and on a pool of exactly one element the draw is that element for every
value of the random source. -/
theorem seed_selection_from_pool :
    (∀ (pool : List String) (o : AttemptOracle) (s : String),
      (runAttempt pool o).seedPut = some s → s ∈ pool) ∧
    (∀ (k : String) (r : Nat), randomChoice [k] r = some k) ∧
    (∀ (k : String) (o : AttemptOracle) (s : String),
      (runAttempt [k] o).seedPut = some s → s = k) := by
  refine ⟨runAttempt_seedPut_mem, ?_, ?_⟩
  · intro k r
    simp [randomChoice, Nat.mod_one]
  · intro k o s h
    simpa using runAttempt_seedPut_mem [k] o s h

/-- Witness for C8: concrete draws from a two-element and two one-element
pools. -/
theorem seed_selection_from_pool_witness :
    ("X" ∈ ["X", "Y"]) ∧ (randomChoice ["Z"] 7 = some "Z") ∧ ("W" = "W") :=
  ⟨seed_selection_from_pool.1 ["X", "Y"] happyOracle "X" (by decide),
   seed_selection_from_pool.2.1 "Z" 7,
   seed_selection_from_pool.2.2 "W" happyOracle "W" (by decide)⟩

/-- Claim C9: the pool is fetched once, before the retry loop; every executed
attempt is exactly `runAttempt` on the pool obtained from that single fetch
outcome, so all attempts of one invocation draw from the identical, unmodified
pool. -/
theorem pool_fetched_once (f : FetchOutcome) (os : Nat → AttemptOracle) (i : Nat)
    (h : i < (generate_single_key f os).attempts.length) :
    (generate_single_key f os).attempts.get? i =
      some (runAttempt (get_base_keys f) (os i)) := by
  have := runLoop_attempts_shape (get_base_keys f) os 3 0 i
    (by simpa [generate_single_key] using h)
  simpa [generate_single_key] using this

/-- Witness for C9: the second attempt of an all-failing run uses the pool of
the initial fetch. -/
theorem pool_fetched_once_witness :
    (generate_single_key FetchOutcome.err (fun _ => badOracle)).attempts.get? 1 =
      some (runAttempt (get_base_keys FetchOutcome.err) badOracle) :=
  pool_fetched_once FetchOutcome.err (fun _ => badOracle) 1 (by decide)

/-- Claim C10: if the final account-info response lacks account_type or
referral_count, the attempt still succeeds, reporting the defaults for the
account type and 0 for the data count; if it lacks the license field, the
attempt fails with an uncategorized (retryable) error and prints nothing to
stdout. -/
theorem final_info_field_defaults :
    (∀ (p : String) (ps : List String) (lic : String),
      (runAttempt (p :: ps) (finalInfoOracle
          { account_type := none, referral_count := none, license := some lic })).result =
        Except.ok lic ∧
      (runAttempt (p :: ps) (finalInfoOracle
          { account_type := none, referral_count := none, license := some lic })).errs =
        [ErrLine.accountType "", ErrLine.dataCount 0] ∧
      (runAttempt (p :: ps) (finalInfoOracle
          { account_type := none, referral_count := none, license := some lic })).stdout = [lic]) ∧
    (∀ (p : String) (ps : List String) (t : Option String) (n : Option Int),
      (runAttempt (p :: ps) (finalInfoOracle
          { account_type := t, referral_count := n, license := none })).result =
        Except.error AttemptError.uncategorized ∧
      (runAttempt (p :: ps) (finalInfoOracle
          { account_type := t, referral_count := n, license := none })).stdout = []) ∧
    (∀ lic : String, (generate_single_key FetchOutcome.err
        (fun _ => finalInfoOracle
          { account_type := none, referral_count := none, license := some lic })).outcome =
      RunOutcome.success lic) := by
  refine ⟨?_, ?_, ?_⟩
  · intro p ps lic
    refine ⟨?_, ?_, ?_⟩ <;>
      simp [runAttempt, finalInfoOracle, happyOracle, checkedJson, sideCall, is2xx,
        randomChoice, failOut]
  · intro p ps t n
    refine ⟨?_, ?_⟩ <;>
      simp [runAttempt, finalInfoOracle, happyOracle, checkedJson, sideCall, is2xx,
        randomChoice, failOut]
  · intro lic
    rfl
